import Mathlib

/-!
Shallow embedding of src/scripts/interaction.js: the Interaction widget of the
h5p-interactive-video plugin.

Modelling choices:
- JS numbers that can be NaN or undefined are Option ℚ (none = not-a-number);
  both NaN and undefined compare false under < and > and poison arithmetic,
  which is the only behaviour the widget relies on.
- DOM nodes (the jQuery handles $interaction and $label) and sub-content
  instances are opaque natural-number ids drawn from a counter, so that
  creation/destruction and identity of handles are observable.
- Synchronous event firings (the display event, instance.$.trigger resize) are
  collected in an events list; setTimeout continuations are collected in a
  separate deferred list.
- JS TypeErrors (dereferencing undefined) surface as Except.error.
- DOM measurements (css fontSize, label position/outerWidth, parsed css left)
  are external inputs and enter the model as explicit arguments.
The dialog-opening path (openDialog, addDot, getCopyrights) involves only
external collaborators and is not needed by any property below, except for the
pure image-fit computation resizeImage, which is embedded in full.
-/

namespace IV

/-- A JS number that may be NaN or undefined: none stands for both, since the
widget only ever compares such values (false) or does arithmetic on them
(propagates). -/
abbrev JsNum := Option ℚ

/-- JS strict less-than on possibly-NaN/undefined numbers: any comparison
involving NaN or undefined is false. -/
def jsLt (a b : JsNum) : Bool :=
  match a, b with
  | some x, some y => decide (x < y)
  | _, _ => false

/-- JS strict greater-than on possibly-NaN/undefined numbers. -/
def jsGt (a b : JsNum) : Bool :=
  match a, b with
  | some x, some y => decide (y < x)
  | _, _ => false

/-- JS multiplication: NaN/undefined operands give NaN. -/
def jsMul (a b : JsNum) : JsNum :=
  match a, b with
  | some x, some y => some (x * y)
  | _, _ => none

/-- JS division: NaN/undefined operands give NaN. The widget only divides by a
measured font size, a nonzero pixel value. -/
def jsDiv (a b : JsNum) : JsNum :=
  match a, b with
  | some x, some y => some (x / y)
  | _, _ => none

/-- JS Math.round: round half toward positive infinity; NaN stays NaN. -/
def jsRound (a : JsNum) : JsNum :=
  a.map (fun q => ((⌊q + 1/2⌋ : ℤ) : ℚ))

/-- The duration field of the interaction parameters: the inclusive visibility
window in seconds. -/
structure Duration where
  from_ : ℚ
  to_ : ℚ
deriving DecidableEq, Repr

/-- The caller-owned parameters object (InteractionSpec). width and height are
optional em sizes, mutated in place by setSize and by remove(true). -/
structure Parameters where
  x : ℚ
  y : ℚ
  width : JsNum
  height : JsNum
  duration : Duration
  label : Option String
  displayAsButton : Option Bool
  pauseFlag : Bool
deriving DecidableEq, Repr

/-- The pixel size stored at action.params.question.settings.size of a
drag-question sub-content (absent for other content types). -/
structure QSize where
  width : JsNum
  height : JsNum
deriving DecidableEq, Repr

/-- The content-type of action.library, resolved once at construction from the
library identifier string (H5P.Nil, H5P.Image, H5P.Summary, H5P.Blanks,
H5P.DragQuestion, anything else). -/
inductive Library
  | nil
  | image
  | summary
  | blanks
  | dragQuestion
  | other
deriving DecidableEq, Repr

/-- The mutable closure state of one Interaction instance: the parameters
object, the resolved library, the drag-question size object when present, the
visual element handle $interaction, the label handle $label (assigned by
createButton and never cleared), whether the label currently carries the
h5p-left-label class, the sub-content instance handle (assigned only by
createPoster; the instance created in openDialog is a shadowing local in the
source and never reaches this variable), and a fresh-id counter. -/
structure InteractionState where
  parameters : Parameters
  library : Library
  questionSize : Option QSize
  interEl : Option Nat
  labelEl : Option Nat
  leftLabel : Bool
  inst : Option Nat
  nextId : Nat
deriving DecidableEq, Repr

/-- Synchronous event firings observable during one call. -/
inductive Event
  | display (el : Nat)
  | resizeNote (inst : Nat)
deriving DecidableEq, Repr

/-- Continuations scheduled with setTimeout during one call, to run on a later
tick (not synchronously). -/
inductive Deferred
  | transitionIn (el : Nat)
  | resizeNote (inst : Nat)
deriving DecidableEq, Repr

/-- Result of one public call: new state, synchronously fired events, deferred
continuations, and the returned jQuery handle (none = undefined). -/
structure StepOut where
  state : InteractionState
  events : List Event
  deferred : List Deferred
  ret : Option Nat
deriving DecidableEq, Repr

/-- A thrown JS error (TypeError), carried as its message. -/
abbrev JsError := String

/-- Modelled from the spec: the HTML sanitation/measurement helper (an external
collaborator, $converter in the source) renders an HTML string and reads its
text content; this strips everything between angle brackets. Only its
emptiness test is consumed. -/
def stripTagsAux : List Char → Bool → List Char
  | [], _ => []
  | c :: cs, true => stripTagsAux cs (c != '>')
  | c :: cs, false =>
    if c = '<' then stripTagsAux cs true else c :: stripTagsAux cs false

/-- Text content of an HTML string: characters outside tags. -/
def stripTags (s : String) : String :=
  String.mk (stripTagsAux s.data false)

/-- Condition under which createButton attaches a label node: the sentinel
H5P.Nil type unconditionally, otherwise a truthy label whose rendered text is
non-empty. -/
def labelAttached (lib : Library) (label : Option String) : Bool :=
  lib == Library.nil ||
    (match label with
     | none => false
     | some l => l != "" && (stripTags l).length != 0)

/-- isButton: parameters.displayAsButton === undefined || parameters.displayAsButton
|| library === H5P.Nil. -/
def isButton (st : InteractionState) : Bool :=
  decide (st.parameters.displayAsButton = none) ||
    st.parameters.displayAsButton.getD false ||
    decide (st.library = Library.nil)

/-- createButton: builds the hidden button element, attaches a label node when
warranted (resetting its left-flip class), fires the display event
synchronously, and schedules the transition-in class flip for the next tick.
It does not create a sub-content instance. -/
def createButton (st : InteractionState) : StepOut :=
  let el := st.nextId
  let hasLabel := labelAttached st.library st.parameters.label
  { state :=
      { st with
        interEl := some el
        labelEl := if hasLabel then some (el + 1) else st.labelEl
        leftLabel := if hasLabel then false else st.leftLabel
        nextId := el + 2 }
    events := [Event.display el]
    deferred := [Deferred.transitionIn el]
    ret := none }

/-- createPoster: builds the poster element, instantiates the sub-content into
it (H5P.newRunnable) storing the instance handle, fires the display event
synchronously, and schedules a resize notification for the next tick. -/
def createPoster (st : InteractionState) : StepOut :=
  let el := st.nextId
  let newInst := el + 1
  { state :=
      { st with
        interEl := some el
        inst := some newInst
        nextId := el + 2 }
    events := [Event.display el]
    deferred := [Deferred.resizeNote newInst]
    ret := none }

/-- remove(updateSize): no-op when no visual element exists. Otherwise, when
updateSize is truthy and the type is H5P.DragQuestion, reconcile sizes through
action.params.question.settings.size (throwing the JS TypeError if that object
is absent): button form pulls px sizes into em parameters, poster form pushes
rounded em sizes back as px. Finally the element is removed and its handle
cleared. The label handle is never cleared. fontSize is the measured css
font-size of the element in px. -/
def remove (fontSize : ℚ) (updateSize : Bool) (st : InteractionState) :
    Except JsError InteractionState :=
  match st.interEl with
  | none => Except.ok st
  | some _ =>
    if updateSize && st.library == Library.dragQuestion then
      match st.questionSize with
      | none =>
        Except.error "TypeError: cannot read property settings of undefined"
      | some sz =>
        if isButton st then
          Except.ok
            { st with
              parameters :=
                { st.parameters with
                  width := jsDiv sz.width (some fontSize)
                  height := jsDiv sz.height (some fontSize) }
              interEl := none }
        else
          Except.ok
            { st with
              questionSize :=
                some
                  { width := jsRound (jsMul st.parameters.width (some fontSize))
                    height := jsRound (jsMul st.parameters.height (some fontSize)) }
              interEl := none }
    else
      Except.ok { st with interEl := none }

/-- toggle(second): out of the inclusive window [duration.from, duration.to]
(comparisons false for NaN/undefined seconds), remove the element if present
and return undefined; in the window with an element present, return undefined
(the source returns without a value); otherwise create a button or poster and
return the new handle. The source calls self.remove() with no argument, so
updateSize is undefined (falsy) and no font-size measurement is consulted; 0
stands in for the unused measurement. -/
def toggle (st : InteractionState) (second : JsNum) : Except JsError StepOut :=
  if jsLt second (some st.parameters.duration.from_) ||
      jsGt second (some st.parameters.duration.to_) then
    if st.interEl.isSome then
      (remove 0 false st).map
        (fun st2 => { state := st2, events := [], deferred := [], ret := none })
    else
      Except.ok { state := st, events := [], deferred := [], ret := none }
  else if st.interEl.isSome then
    Except.ok { state := st, events := [], deferred := [], ret := none }
  else if isButton st then
    let r := createButton st
    Except.ok { r with ret := r.state.interEl }
  else
    let r := createPoster st
    Except.ok { r with ret := r.state.interEl }

/-- setPosition: pure mutation of the parameters object. -/
def setPosition (x y : ℚ) (st : InteractionState) : InteractionState :=
  { st with parameters := { st.parameters with x := x, y := y } }

/-- setSize(width, height): mutates the stored em size; for H5P.DragQuestion
removes with updateSize and toggles with parameters.from -- a property that
does not exist on the parameters object (the duration lives at
parameters.duration.from), hence undefined, modelled as none; finally fires a
synchronous resize notification on the stored instance, throwing the JS
TypeError when no instance was ever stored (as for button-mode interactions,
whose sub-content only ever lives in a local of openDialog). -/
def setSize (fontSize : ℚ) (width height : ℚ) (st : InteractionState) :
    Except JsError StepOut :=
  let st1 :=
    { st with
      parameters := { st.parameters with width := some width, height := some height } }
  if st1.library == Library.dragQuestion then
    match remove fontSize true st1 with
    | Except.error e => Except.error e
    | Except.ok st2 =>
      match toggle st2 none with
      | Except.error e => Except.error e
      | Except.ok r =>
        match r.state.inst with
        | none => Except.error "TypeError: cannot read property of undefined"
        | some i =>
          Except.ok
            { state := r.state
              events := r.events ++ [Event.resizeNote i]
              deferred := r.deferred
              ret := none }
  else
    match st1.inst with
    | none => Except.error "TypeError: cannot read property of undefined"
    | some i =>
      Except.ok
        { state := st1, events := [Event.resizeNote i], deferred := [], ret := none }

/-- DOM measurements consumed by positionLabel: the numeric value parsed from
the css left of the button (parseInt yields an integer), the label node
position().left and its outerWidth(). -/
structure LabelEnv where
  buttonLeft : ℤ
  labelLeft : ℚ
  labelWidth : ℚ
deriving DecidableEq, Repr

/-- positionLabel(width): no-op unless in button mode with a label handle.
Otherwise the h5p-left-label class is first removed, then the css left of
$interaction is read -- a TypeError when the element handle is cleared (the
class removal in the source precedes the throw; the model reports the throw) --
and the class is added exactly when buttonLeft + labelLeft + labelWidth
strictly exceeds the container width. -/
def positionLabel (env : LabelEnv) (width : ℚ) (st : InteractionState) :
    Except JsError InteractionState :=
  if !isButton st || st.labelEl.isNone then
    Except.ok st
  else
    let st1 := { st with leftLabel := false }
    match st1.interEl with
    | none => Except.error "TypeError: cannot read property css of undefined"
    | some _ =>
      Except.ok
        { st1 with
          leftLabel :=
            decide ((env.buttonLeft : ℚ) + env.labelLeft + env.labelWidth > width) }

/-- pause: pure accessor of the stored pause flag. -/
def pauseAccessor (st : InteractionState) : Bool :=
  st.parameters.pauseFlag

/-- An available width/height pair in em (dialog.getMaxSize result or an image
natural size divided by the 16 px baseline). -/
structure Size where
  width : ℚ
  height : ℚ
deriving DecidableEq, Repr

/-- resizeImage geometry: convert the natural px size to em at the 16 px
baseline, then scale down to the max height when exceeded, then scale down to
the max width when (still) exceeded. The subsequent conversion by the ratio of
the baseline to the actual element font size and the dialog positioning act on
external collaborators and are outside the computed size. -/
def resizeImage (max size : Size) : Size :=
  let fontSize : ℚ := 16
  let s1 : Size := { width := size.width / fontSize, height := size.height / fontSize }
  let s2 : Size :=
    if s1.height > max.height then
      { width := s1.width * max.height / s1.height, height := max.height }
    else s1
  if s2.width > max.width then
    { width := max.width, height := s2.height * max.width / s2.width }
  else s2

/-! Sample states for concrete evaluation. -/

/-- A sample caller-owned parameters object with window [5, 10]. -/
def sampleParams : Parameters :=
  { x := 20, y := 30, width := none, height := none
    duration := { from_ := 5, to_ := 10 }
    label := some "Label", displayAsButton := none, pauseFlag := false }

/-- A freshly constructed interaction over sampleParams, generic content type. -/
def sampleState : InteractionState :=
  { parameters := sampleParams, library := Library.other, questionSize := none
    interEl := none, labelEl := none, leftLabel := false, inst := none, nextId := 0 }

/-- The state after a first in-window toggle on sampleState: button created
(element id 0) with its label node (id 1). -/
def sampleToggled : StepOut :=
  { state := { sampleState with interEl := some 0, labelEl := some 1, nextId := 2 }
    events := [Event.display 0]
    deferred := [Deferred.transitionIn 0]
    ret := some 0 }

/-- A sample state whose visual element (id 0) is currently on display. -/
def sampleOnDisplay : InteractionState :=
  { sampleState with interEl := some 0, nextId := 2 }

/-- The instance handles extracted from the resize notifications among the
synchronous events of a call, in order. -/
def resizeNotes (evs : List Event) : List Nat :=
  evs.filterMap fun ev =>
    match ev with
    | Event.resizeNote i => some i
    | _ => none

/-- A sample poster-mode interaction (displayAsButton explicitly false) on
display with element 0 and sub-content instance 1. -/
def samplePosterShown : InteractionState :=
  { sampleState with
    parameters := { sampleParams with displayAsButton := some false }
    interEl := some 0
    inst := some 1
    nextId := 2 }

/-- A sample poster-mode drag-question interaction on display, with the
question settings size object present. -/
def sampleDragPoster : InteractionState :=
  { samplePosterShown with
    library := Library.dragQuestion
    questionSize := some { width := some 320, height := some 160 } }

/-- The button-with-label sample after remove: the element handle is cleared
but the label handle survives. -/
def sampleRemoved : InteractionState :=
  { sampleToggled.state with interEl := none }

/-! Theorems for the claims. -/

/-- remove without the updateSize flag never throws and only clears the visual
element handle. -/
theorem remove_no_updateSize (fontSize : ℚ) (st : InteractionState) :
    remove fontSize false st = Except.ok { st with interEl := none } := by
  obtain ⟨p, lib, q, ie, le, ll, i, n⟩ := st
  cases ie <;> simp [remove]

/-- toggle with an in-window real second and no element present creates one. -/
theorem toggle_in_create (st : InteractionState) (s : ℚ)
    (hie : st.interEl = none)
    (h1 : st.parameters.duration.from_ ≤ s) (h2 : s ≤ st.parameters.duration.to_) :
    toggle st (some s)
      = Except.ok (if isButton st then
          { createButton st with ret := (createButton st).state.interEl }
        else
          { createPoster st with ret := (createPoster st).state.interEl }) := by
  have hcond : (jsLt (some s) (some st.parameters.duration.from_) ||
      jsGt (some s) (some st.parameters.duration.to_)) = false := by
    simp only [jsLt, jsGt, Bool.or_eq_false_iff, decide_eq_false_iff_not, not_lt]
    exact ⟨h1, h2⟩
  rw [toggle, hcond]
  simp [hie]
  split <;> rfl

/-- toggle with an in-window real second and an element present returns
undefined and changes nothing. -/
theorem toggle_in_existing (st : InteractionState) (s : ℚ) (e : Nat)
    (hie : st.interEl = some e)
    (h1 : st.parameters.duration.from_ ≤ s) (h2 : s ≤ st.parameters.duration.to_) :
    toggle st (some s)
      = Except.ok { state := st, events := [], deferred := [], ret := none } := by
  have hcond : (jsLt (some s) (some st.parameters.duration.from_) ||
      jsGt (some s) (some st.parameters.duration.to_)) = false := by
    simp only [jsLt, jsGt, Bool.or_eq_false_iff, decide_eq_false_iff_not, not_lt]
    exact ⟨h1, h2⟩
  rw [toggle, hcond]
  simp [hie]

/-- toggle with an out-of-window second removes any element and returns
undefined. -/
theorem toggle_out (st : InteractionState) (s : ℚ)
    (h : s < st.parameters.duration.from_ ∨ st.parameters.duration.to_ < s) :
    toggle st (some s)
      = Except.ok
          { state := { st with interEl := none }
            events := []
            deferred := []
            ret := none } := by
  have hcond : (jsLt (some s) (some st.parameters.duration.from_) ||
      jsGt (some s) (some st.parameters.duration.to_)) = true := by
    simp only [jsLt, jsGt, Bool.or_eq_true, decide_eq_true_eq]
    exact h
  rw [toggle, hcond]
  cases hie : st.interEl with
  | none =>
    obtain ⟨p, lib, q, ie, le, ll, i, n⟩ := st
    cases hie
    simp
  | some e =>
    simp [hie, remove_no_updateSize, Except.map]

/-- C4: the image scale-to-fit computation converts px to em by dividing by 16,
height-fits, then width-fits; whenever the converted natural size exceeds max
in both axes (max positive), the result never exceeds max in either axis and
preserves the original aspect ratio; natural 1600x900 px with max 40x30 em
yields 40x22.5 em. -/
theorem resizeImage_fits (max size : Size)
    (hmw : 0 < max.width) (hmh : 0 < max.height)
    (hw : max.width < size.width / 16) (hh : max.height < size.height / 16) :
    ((resizeImage max size).width ≤ max.width ∧
      (resizeImage max size).height ≤ max.height ∧
      (resizeImage max size).width * size.height
        = (resizeImage max size).height * size.width) ∧
    resizeImage { width := 40, height := 30 } { width := 1600, height := 900 }
      = { width := 40, height := 45/2 } := by
  constructor
  · obtain ⟨mw, mh⟩ := max
    obtain ⟨w, h⟩ := size
    dsimp only at hmw hmh hw hh
    have hwpos : 0 < w := by
      rcases div_pos_iff.mp (hmw.trans hw) with ⟨h1, _⟩ | ⟨_, h2⟩
      · exact h1
      · norm_num at h2
    have hhpos : 0 < h := by
      rcases div_pos_iff.mp (hmh.trans hh) with ⟨h1, _⟩ | ⟨_, h2⟩
      · exact h1
      · norm_num at h2
    simp only [resizeImage]
    rw [if_pos hh]
    have hA : w / 16 * mh / (h / 16) = w * mh / h := by
      field_simp
    by_cases hc : w / 16 * mh / (h / 16) > mw
    · rw [if_pos hc]
      dsimp only
      have hApos : 0 < w / 16 * mh / (h / 16) := hmw.trans hc
      refine ⟨le_refl _, ?_, ?_⟩
      · rw [div_le_iff₀ hApos]
        nlinarith [hc, hmh]
      · rw [hA] at hc ⊢
        have hne : w * mh / h ≠ 0 := by positivity
        field_simp
        ring
    · rw [if_neg hc]
      dsimp only
      refine ⟨le_of_not_lt hc, le_refl _, ?_⟩
      rw [hA]
      field_simp
      ring
  · norm_num [resizeImage]

/-- C4 witness: the general bound applied at the concrete 3200x1800 px natural
size with max 40x30 em. -/
theorem resizeImage_fits_witness :
    (0:ℚ) < 40 ∧ (0:ℚ) < 30 ∧ (40:ℚ) < 3200 / 16 ∧ (30:ℚ) < 1800 / 16 ∧
    ((resizeImage { width := 40, height := 30 } { width := 3200, height := 1800 }).width ≤ 40 ∧
      (resizeImage { width := 40, height := 30 } { width := 3200, height := 1800 }).height ≤ 30 ∧
      (resizeImage { width := 40, height := 30 } { width := 3200, height := 1800 }).width * 1800
        = (resizeImage { width := 40, height := 30 } { width := 3200, height := 1800 }).height * 3200) :=
  ⟨by norm_num, by norm_num, by norm_num, by norm_num,
    (resizeImage_fits { width := 40, height := 30 } { width := 3200, height := 1800 }
      (by norm_num) (by norm_num) (by norm_num) (by norm_num)).1⟩

/-- C5: isButton is false exactly when displayAsButton is explicitly false and
the content type is not H5P.Nil; in particular it is true whenever
displayAsButton is absent, and always true for H5P.Nil. -/
theorem isButton_spec (st : InteractionState) :
    (isButton st = false ↔
      st.parameters.displayAsButton = some false ∧ st.library ≠ Library.nil) ∧
    (st.parameters.displayAsButton = none → isButton st = true) ∧
    (st.library = Library.nil → isButton st = true) := by
  rcases h : st.parameters.displayAsButton with _ | b
  · simp [isButton, h]
  · cases b <;> simp [isButton, h]

/-- C1: after toggle(s) with a real second s, a visual element exists iff
duration.from <= s <= duration.to, for every starting state (so independent of
call history and of non-monotonic seeking); and toggling again with the same
second changes nothing, so repeated in-window calls never create a second
element. -/
theorem toggle_visibility_spec (st : InteractionState) (s : ℚ) (out : StepOut)
    (hout : toggle st (some s) = Except.ok out) :
    (out.state.interEl.isSome = true ↔
      st.parameters.duration.from_ ≤ s ∧ s ≤ st.parameters.duration.to_) ∧
    toggle out.state (some s)
      = Except.ok { state := out.state, events := [], deferred := [], ret := none } := by
  by_cases hin : st.parameters.duration.from_ ≤ s ∧ s ≤ st.parameters.duration.to_
  · cases hie : st.interEl with
    | some e =>
      rw [toggle_in_existing st s e hie hin.1 hin.2] at hout
      injection hout with h
      subst h
      refine ⟨by simpa [hie] using hin, ?_⟩
      exact toggle_in_existing st s e hie hin.1 hin.2
    | none =>
      rw [toggle_in_create st s hie hin.1 hin.2] at hout
      injection hout with h
      subst h
      by_cases hb : isButton st
      · rw [if_pos hb]
        refine ⟨by simpa [createButton] using hin, ?_⟩
        exact toggle_in_existing _ s st.nextId rfl hin.1 hin.2
      · rw [if_neg hb]
        refine ⟨by simpa [createPoster] using hin, ?_⟩
        exact toggle_in_existing _ s st.nextId rfl hin.1 hin.2
  · have hor : s < st.parameters.duration.from_ ∨ st.parameters.duration.to_ < s := by
      rcases not_and_or.mp hin with h | h
      · exact Or.inl (not_le.mp h)
      · exact Or.inr (not_le.mp h)
    rw [toggle_out st s hor] at hout
    injection hout with h
    subst h
    refine ⟨by simpa using hin, ?_⟩
    exact toggle_out _ s hor

/-- C1 witness: from the sampleState (window [5, 10], no element), toggle at 7
creates element 0; the element exists iff 5 <= 7 <= 10, and a second toggle at
7 changes nothing. -/
theorem toggle_visibility_spec_witness :
    (sampleToggled.state.interEl.isSome = true ↔ (5:ℚ) ≤ 7 ∧ (7:ℚ) ≤ 10) ∧
    toggle sampleToggled.state (some 7)
      = Except.ok
          { state := sampleToggled.state, events := [], deferred := [], ret := none } :=
  toggle_visibility_spec sampleState 7 sampleToggled (by rfl)

/-- C2 counterexample: with the window [5, 10], an element (id 0) on display
and second 7 inside the window, toggle returns undefined (ret = none), not the
existing handle some 0, while leaving the state untouched. -/
theorem toggle_in_window_existing_returns_nothing_cex :
    sampleOnDisplay.interEl = some 0 ∧ (5:ℚ) ≤ 7 ∧ (7:ℚ) ≤ 10 ∧
    toggle sampleOnDisplay (some 7)
      = Except.ok
          { state := sampleOnDisplay, events := [], deferred := [], ret := none } :=
  ⟨rfl, by norm_num, by norm_num, by rfl⟩

/-- C2 amended: with an in-window second and an element already present, the
call is a no-op that leaves the element in place but returns nothing
(undefined), not the existing handle. -/
theorem toggle_in_window_existing_noop (st : InteractionState) (s : ℚ) (e : Nat)
    (hie : st.interEl = some e)
    (h1 : st.parameters.duration.from_ ≤ s) (h2 : s ≤ st.parameters.duration.to_) :
    toggle st (some s)
      = Except.ok { state := st, events := [], deferred := [], ret := none } :=
  toggle_in_existing st s e hie h1 h2

/-- C2 amended witness: the no-op at the concrete on-display state and second 7. -/
theorem toggle_in_window_existing_noop_witness :
    toggle sampleOnDisplay (some 7)
      = Except.ok
          { state := sampleOnDisplay, events := [], deferred := [], ret := none } :=
  toggle_in_window_existing_noop sampleOnDisplay 7 0 rfl
    (by norm_num [sampleOnDisplay, sampleState, sampleParams])
    (by norm_num [sampleOnDisplay, sampleState, sampleParams])

/-- C6: whenever toggle creates a new visual element, the display event is
fired exactly once during the call (the events list holds the synchronous
firings; deferred continuations cannot fire display at all) and carries the
new element; when toggle leaves an element alone or destroys one, no event is
fired. -/
theorem toggle_display_event_spec (st : InteractionState) (s : ℚ) (out : StepOut)
    (hout : toggle st (some s) = Except.ok out) :
    (st.interEl = none → st.parameters.duration.from_ ≤ s →
      s ≤ st.parameters.duration.to_ →
      ∃ el, out.state.interEl = some el ∧ out.events = [Event.display el]) ∧
    (st.interEl.isSome = true ∨ s < st.parameters.duration.from_ ∨
        st.parameters.duration.to_ < s →
      out.events = []) := by
  constructor
  · intro hie h1 h2
    rw [toggle_in_create st s hie h1 h2] at hout
    injection hout with h
    subst h
    by_cases hb : isButton st
    · rw [if_pos hb]
      exact ⟨st.nextId, rfl, rfl⟩
    · rw [if_neg hb]
      exact ⟨st.nextId, rfl, rfl⟩
  · intro hcase
    rcases hcase with hie | hs
    · obtain ⟨e, he⟩ := Option.isSome_iff_exists.mp hie
      by_cases hin : st.parameters.duration.from_ ≤ s ∧ s ≤ st.parameters.duration.to_
      · rw [toggle_in_existing st s e he hin.1 hin.2] at hout
        injection hout with h
        subst h
        rfl
      · have hor : s < st.parameters.duration.from_ ∨ st.parameters.duration.to_ < s := by
          rcases not_and_or.mp hin with h | h
          · exact Or.inl (not_le.mp h)
          · exact Or.inr (not_le.mp h)
        rw [toggle_out st s hor] at hout
        injection hout with h
        subst h
        rfl
    · rw [toggle_out st s hs] at hout
      injection hout with h
      subst h
      rfl

/-- C6 witness: creating from sampleState at second 7 fires display exactly
once with the new element 0; toggling the on-display sample at 7 (element kept)
and at 12 (element destroyed) fires nothing. -/
theorem toggle_display_event_spec_witness :
    (∃ el, sampleToggled.state.interEl = some el ∧
      sampleToggled.events = [Event.display el]) ∧
    ([] : List Event) = [] ∧
    (StepOut.events
      { state := { sampleOnDisplay with interEl := none }
        events := []
        deferred := []
        ret := none } = []) :=
  ⟨(toggle_display_event_spec sampleState 7 sampleToggled (by rfl)).1 rfl
      (by norm_num [sampleState, sampleParams])
      (by norm_num [sampleState, sampleParams]),
    (toggle_display_event_spec sampleOnDisplay 7
        { state := sampleOnDisplay, events := [], deferred := [], ret := none }
        (by rfl)).2 (Or.inl rfl),
    (toggle_display_event_spec sampleOnDisplay 12
        { state := { sampleOnDisplay with interEl := none }
          events := []
          deferred := []
          ret := none }
        (by rfl)).2
      (Or.inr (Or.inr (by norm_num [sampleOnDisplay, sampleState, sampleParams])))⟩

/-- C5 witness: a state with displayAsButton explicitly false and a generic
content type is not a button; the sentinel state is. -/
theorem isButton_spec_witness :
    isButton { sampleState with
      parameters := { sampleParams with displayAsButton := some false } } = false ∧
    isButton { sampleState with library := Library.nil } = true :=
  ⟨(isButton_spec _).1.mpr ⟨rfl, by decide⟩,
    (isButton_spec _).2.2 rfl⟩

/-- C7: positionLabel is a no-op unless in button mode with a label handle;
when the button, its label and the visual element are present, the left-flip
class is first cleared and then set exactly when the button left offset plus
the label left offset plus the label width strictly exceeds the container
width; at boundary equality it stays cleared. -/
theorem positionLabel_spec (env : LabelEnv) (width : ℚ) (st : InteractionState) :
    (¬(isButton st = true ∧ st.labelEl.isSome = true) →
      positionLabel env width st = Except.ok st) ∧
    (isButton st = true → st.labelEl.isSome = true → st.interEl.isSome = true →
      positionLabel env width st
        = Except.ok
            { st with
              leftLabel :=
                decide ((env.buttonLeft : ℚ) + env.labelLeft + env.labelWidth > width) }) ∧
    (isButton st = true → st.labelEl.isSome = true → st.interEl.isSome = true →
      (env.buttonLeft : ℚ) + env.labelLeft + env.labelWidth = width →
      positionLabel env width st = Except.ok { st with leftLabel := false }) := by
  refine ⟨?_, ?_, ?_⟩
  · intro hnot
    rcases not_and_or.mp hnot with hb | hl
    · have hb' : isButton st = false := by
        cases h : isButton st
        · rfl
        · exact absurd h hb
      rw [positionLabel, if_pos]
      simp [hb']
    · have hl' : st.labelEl = none := by
        cases h : st.labelEl
        · rfl
        · exact absurd (by simp [h]) hl
      rw [positionLabel, if_pos]
      simp [hl']
  · intro hb hl hie
    obtain ⟨e, he⟩ := Option.isSome_iff_exists.mp hie
    rw [positionLabel, if_neg]
    · simp only [he]
    · simp [hb, Option.isNone_iff_eq_none]
      exact Option.isSome_iff_ne_none.mp hl
  · intro hb hl hie heq
    obtain ⟨e, he⟩ := Option.isSome_iff_exists.mp hie
    rw [positionLabel, if_neg]
    · simp only [he]
      have : ¬((env.buttonLeft : ℚ) + env.labelLeft + env.labelWidth > width) :=
        not_lt.mpr (le_of_eq heq)
      simp [this]
    · simp [hb, Option.isNone_iff_eq_none]
      exact Option.isSome_iff_ne_none.mp hl

/-- C7 witness: on the displayed button with label (element 0, label 1), with
button left 20, label left 5 and label width 30: container width 54 flips the
label left (55 > 54), container width 55 (boundary equality) does not, and a
poster-mode state is untouched. -/
theorem positionLabel_spec_witness :
    positionLabel { buttonLeft := 20, labelLeft := 5, labelWidth := 30 } 54
        sampleToggled.state
      = Except.ok { sampleToggled.state with leftLabel := true } ∧
    positionLabel { buttonLeft := 20, labelLeft := 5, labelWidth := 30 } 55
        sampleToggled.state
      = Except.ok { sampleToggled.state with leftLabel := false } ∧
    positionLabel { buttonLeft := 20, labelLeft := 5, labelWidth := 30 } 54
        samplePosterShown
      = Except.ok samplePosterShown := by
  refine ⟨?_, ?_, ?_⟩
  · have h := (positionLabel_spec
        { buttonLeft := 20, labelLeft := 5, labelWidth := 30 } 54
        sampleToggled.state).2.1 rfl rfl rfl
    rw [h]
    norm_num
  · exact (positionLabel_spec
        { buttonLeft := 20, labelLeft := 5, labelWidth := 30 } 55
        sampleToggled.state).2.2 rfl rfl rfl (by norm_num)
  · exact (positionLabel_spec
        { buttonLeft := 20, labelLeft := 5, labelWidth := 30 } 54
        samplePosterShown).1 (by decide)

/-- C8: remove on an instance with no visual element, with or without the
updateSize flag, returns the state unchanged (parameters object included) and
does not throw. -/
theorem remove_noop_spec (fontSize : ℚ) (updateSize : Bool) (st : InteractionState)
    (hie : st.interEl = none) :
    remove fontSize updateSize st = Except.ok st := by
  rw [remove, hie]

/-- C8 witness: removing from the element-less sampleState, with and without
the updateSize flag, is the identity. -/
theorem remove_noop_spec_witness :
    remove 16 true sampleState = Except.ok sampleState ∧
    remove 16 false sampleState = Except.ok sampleState :=
  ⟨remove_noop_spec 16 true sampleState rfl, remove_noop_spec 16 false sampleState rfl⟩

/-- C10: every successful remove leaves the label handle untouched (only the
element handle is cleared); createButton stores a label handle whenever it
attaches a label; and positionLabel on a button-mode state whose label handle
survives but whose element is gone passes the guard and throws the TypeError
instead of being a no-op. -/
theorem remove_label_leak_spec :
    (∀ (fontSize : ℚ) (updateSize : Bool) (st st2 : InteractionState),
      remove fontSize updateSize st = Except.ok st2 → st2.labelEl = st.labelEl) ∧
    (∀ st : InteractionState, labelAttached st.library st.parameters.label = true →
      (createButton st).state.labelEl = some (st.nextId + 1)) ∧
    (∀ (env : LabelEnv) (width : ℚ) (st : InteractionState),
      isButton st = true → st.labelEl.isSome = true → st.interEl = none →
      positionLabel env width st
        = Except.error "TypeError: cannot read property css of undefined") := by
  refine ⟨?_, ?_, ?_⟩
  · intro fontSize updateSize st st2 h
    rw [remove] at h
    split at h
    · injection h with h2
      rw [← h2]
    · split at h
      · split at h
        · simp at h
        · split at h
          · injection h with h2
            rw [← h2]
          · injection h with h2
            rw [← h2]
      · injection h with h2
        rw [← h2]
  · intro st hl
    simp [createButton, hl]
  · intro env width st hb hl hie
    rw [positionLabel, if_neg]
    · simp only [hie]
    · simp [hb, Option.isNone_iff_eq_none]
      exact Option.isSome_iff_ne_none.mp hl

/-- setSize on a non-drag content type with a stored instance delivers one
synchronous resize notification and schedules nothing. -/
theorem setSize_generic (fontSize w h : ℚ) (st : InteractionState) (i : Nat)
    (hlib : st.library ≠ Library.dragQuestion) (hi : st.inst = some i) :
    setSize fontSize w h st
      = Except.ok
          { state :=
              { st with
                parameters := { st.parameters with width := some w, height := some h } }
            events := [Event.resizeNote i]
            deferred := []
            ret := none } := by
  simp [setSize, hlib, hi]

/-- setSize on a non-drag content type with no stored instance throws. -/
theorem setSize_generic_missing (fontSize w h : ℚ) (st : InteractionState)
    (hlib : st.library ≠ Library.dragQuestion) (hi : st.inst = none) :
    setSize fontSize w h st
      = Except.error "TypeError: cannot read property of undefined" := by
  simp [setSize, hlib, hi]

/-- setSize on a displayed drag-question poster with the question size object
present: the element is destroyed with size reconciliation (poster form pushes
the rounded px size into the question settings), recreated through
toggle(undefined), and the fresh instance gets one synchronous resize
notification plus a deferred one. -/
theorem setSize_dragQuestion_poster (fontSize w h : ℚ) (st : InteractionState)
    (e : Nat) (sz : QSize)
    (hlib : st.library = Library.dragQuestion) (hb : isButton st = false)
    (hie : st.interEl = some e) (hq : st.questionSize = some sz) :
    setSize fontSize w h st
      = Except.ok
          { state :=
              { st with
                parameters := { st.parameters with width := some w, height := some h }
                questionSize :=
                  some { width := some ((⌊w * fontSize + 1/2⌋ : ℤ) : ℚ)
                         height := some ((⌊h * fontSize + 1/2⌋ : ℤ) : ℚ) }
                interEl := some st.nextId
                inst := some (st.nextId + 1)
                nextId := st.nextId + 2 }
            events := [Event.display st.nextId, Event.resizeNote (st.nextId + 1)]
            deferred := [Deferred.resizeNote (st.nextId + 1)]
            ret := none } := by
  obtain ⟨p, lib, q, ie, le, ll, ins, n⟩ := st
  cases hlib
  cases hie
  cases hq
  have hdab : p.displayAsButton = some false := by
    rcases hdd : p.displayAsButton with _ | b
    · simp [isButton, hdd] at hb
    · cases b
      · rfl
      · simp [isButton, hdd] at hb
  simp [setSize, remove, toggle, createPoster, isButton, jsLt, jsGt, jsMul,
    jsRound, hdab]

/-- setSize on a drag-question in button mode with no stored instance throws:
either remove(true) dereferences a missing question size object, or (after the
size reconciliation when the element and the size object are present) the
element is recreated as a button -- which stores no instance -- and the final
resize trigger dereferences the undefined instance. -/
theorem setSize_dragQuestion_button (fontSize w h : ℚ) (st : InteractionState)
    (hlib : st.library = Library.dragQuestion) (hb : isButton st = true)
    (hi : st.inst = none) :
    ∃ msg, setSize fontSize w h st = Except.error msg := by
  obtain ⟨p, lib, q, ie, le, ll, ins, n⟩ := st
  cases hlib
  cases hi
  have hdd : p.displayAsButton = none ∨ p.displayAsButton = some true := by
    rcases hd : p.displayAsButton with _ | b
    · exact Or.inl rfl
    · cases b
      · simp [isButton, hd] at hb
      · exact Or.inr rfl
  cases ie with
  | none =>
    refine ⟨"TypeError: cannot read property of undefined", ?_⟩
    rcases hdd with hd | hd <;>
      simp [setSize, remove, toggle, createButton, jsLt, jsGt, isButton, hd]
  | some e =>
    cases q with
    | none =>
      refine ⟨"TypeError: cannot read property settings of undefined", ?_⟩
      rcases hdd with hd | hd <;> simp [setSize, remove, isButton, hd]
    | some sz =>
      refine ⟨"TypeError: cannot read property of undefined", ?_⟩
      rcases hdd with hd | hd <;>
        simp [setSize, remove, toggle, createButton, jsLt, jsGt, isButton, hd]

/-- C3 counterexample: a displayed button-mode interaction (the default mode)
has no stored sub-content instance -- the only assignment to the instance
variable is in createPoster, the one in openDialog being a shadowing local --
so setSize dereferences undefined and throws; the sub-content receives zero
resize notifications, not exactly one. -/
theorem setSize_button_throws_cex :
    isButton sampleOnDisplay = true ∧ sampleOnDisplay.inst = none ∧
    setSize 16 20 15 sampleOnDisplay
      = Except.error "TypeError: cannot read property of undefined" :=
  ⟨rfl, rfl, by rfl⟩

/-- C3 amended: when a sub-content instance is stored (poster mode), setSize
delivers exactly one synchronous resize notification -- to the stored instance
for non-drag types, and to the freshly recreated instance for a displayed
drag-question poster (which additionally gets one deferred notification);
when no instance is stored (button-mode interactions in particular, whether
drag-question or not) the call throws and no notification is delivered. -/
theorem setSize_resize_spec (fontSize w h : ℚ) (st : InteractionState) :
    (∀ i, st.library ≠ Library.dragQuestion → st.inst = some i →
      ∃ out, setSize fontSize w h st = Except.ok out ∧
        resizeNotes out.events = [i] ∧ out.deferred = []) ∧
    (st.library ≠ Library.dragQuestion → st.inst = none →
      setSize fontSize w h st
        = Except.error "TypeError: cannot read property of undefined") ∧
    (∀ e sz, st.library = Library.dragQuestion → isButton st = false →
      st.interEl = some e → st.questionSize = some sz →
      ∃ out, setSize fontSize w h st = Except.ok out ∧
        out.state.inst = some (st.nextId + 1) ∧
        resizeNotes out.events = [st.nextId + 1] ∧
        out.deferred = [Deferred.resizeNote (st.nextId + 1)]) ∧
    (st.library = Library.dragQuestion → isButton st = true → st.inst = none →
      ∃ msg, setSize fontSize w h st = Except.error msg) := by
  refine ⟨?_, ?_, ?_, ?_⟩
  · intro i hlib hi
    exact ⟨_, setSize_generic fontSize w h st i hlib hi, by simp [resizeNotes], rfl⟩
  · intro hlib hi
    exact setSize_generic_missing fontSize w h st hlib hi
  · intro e sz hlib hb hie hq
    exact ⟨_, setSize_dragQuestion_poster fontSize w h st e sz hlib hb hie hq,
      rfl, by simp [resizeNotes], rfl⟩
  · intro hlib hb hi
    exact setSize_dragQuestion_button fontSize w h st hlib hb hi

/-- C3 amended witness: on the displayed generic poster (instance 1), setSize
yields exactly one resize notification, to instance 1, with nothing deferred;
on a displayed button-mode drag-question (no stored instance) it throws. -/
theorem setSize_resize_spec_witness :
    (∃ out, setSize 16 20 15 samplePosterShown = Except.ok out ∧
      resizeNotes out.events = [1] ∧ out.deferred = []) ∧
    (∃ msg, setSize 16 20 15
        { sampleOnDisplay with
          library := Library.dragQuestion
          questionSize := some { width := some 320, height := some 160 } }
      = Except.error msg) :=
  ⟨(setSize_resize_spec 16 20 15 samplePosterShown).1 1 (by decide) rfl,
    (setSize_resize_spec 16 20 15
        { sampleOnDisplay with
          library := Library.dragQuestion
          questionSize := some { width := some 320, height := some 160 } }).2.2.2
      rfl rfl rfl⟩

/-- C9: toggle with a non-numeric second (undefined or NaN, both none here)
makes both window comparisons false, so the call follows the in-window path
regardless of the duration window: an element always exists afterwards, and an
existing element is left alone; this is the path setSize relies on for
drag-question recreation, since the source passes the nonexistent
parameters.from (undefined) rather than parameters.duration.from. -/
theorem toggle_undefined_spec :
    (∀ q : ℚ, jsLt none (some q) = false ∧ jsGt none (some q) = false) ∧
    (∀ (st : InteractionState) (out : StepOut), toggle st none = Except.ok out →
      out.state.interEl.isSome = true ∧
      (∀ e, st.interEl = some e →
        out = { state := st, events := [], deferred := [], ret := none })) ∧
    (∀ (fontSize w h : ℚ) (st : InteractionState) (e : Nat) (sz : QSize),
      st.library = Library.dragQuestion → isButton st = false →
      st.interEl = some e → st.questionSize = some sz →
      ∃ out, setSize fontSize w h st = Except.ok out ∧
        out.state.interEl = some st.nextId) := by
  refine ⟨fun q => ⟨rfl, rfl⟩, ?_, ?_⟩
  · intro st out hout
    rw [toggle] at hout
    simp only [jsLt, jsGt, Bool.or_self, Bool.false_eq_true, if_false] at hout
    cases hie : st.interEl with
    | some e =>
      rw [hie] at hout
      simp only [Option.isSome_some, if_true] at hout
      injection hout with h2
      subst h2
      exact ⟨by simp [hie], fun e2 _ => rfl⟩
    | none =>
      rw [hie] at hout
      simp only [Option.isSome_none, Bool.false_eq_true, if_false] at hout
      by_cases hb : isButton st
      · rw [if_pos hb] at hout
        injection hout with h2
        subst h2
        exact ⟨rfl, fun e2 he2 => absurd he2 (by simp [hie])⟩
      · rw [if_neg hb] at hout
        injection hout with h2
        subst h2
        exact ⟨rfl, fun e2 he2 => absurd he2 (by simp [hie])⟩
  · intro fontSize w h st e sz hlib hb hie hq
    exact ⟨_, setSize_dragQuestion_poster fontSize w h st e sz hlib hb hie hq, rfl⟩

/-- C9 witness: toggle with an undefined second on the element-less sampleState
(window [5, 10], no current second in the window is supplied) creates the
element; setSize on the displayed drag poster recreates element 2. -/
theorem toggle_undefined_spec_witness :
    sampleToggled.state.interEl.isSome = true ∧
    (∃ out, setSize 16 20 15 sampleDragPoster = Except.ok out ∧
      out.state.interEl = some 2) :=
  ⟨(toggle_undefined_spec.2.1 sampleState sampleToggled (by rfl)).1,
    toggle_undefined_spec.2.2 16 20 15 sampleDragPoster 0
      { width := some 320, height := some 160 } rfl (by decide) rfl rfl⟩

/-- C10 witness: removing the displayed labelled button keeps label handle 1,
and positionLabel on the removed state throws. -/
theorem remove_label_leak_spec_witness :
    sampleRemoved.labelEl = some 1 ∧
    positionLabel { buttonLeft := 20, labelLeft := 5, labelWidth := 30 } 100
        sampleRemoved
      = Except.error "TypeError: cannot read property css of undefined" :=
  ⟨(remove_label_leak_spec.1 0 false sampleToggled.state sampleRemoved (by rfl)).trans rfl,
    remove_label_leak_spec.2.2 { buttonLeft := 20, labelLeft := 5, labelWidth := 30 }
      100 sampleRemoved rfl rfl rfl⟩

end IV
